import Mathlib

/-!
Shallow embedding of the Audax Interactive Planner core (src/src/App.tsx):
the plan generator (a pure function from the fixed date range to a list of
day records) and the plan state manager (pure transition functions over the
DayPlan collection plus the history log).

Conventions of the embedding:
* Calendar dates are absolute day numbers (days since 1970-01-01, the unit
  underlying the JS `Date` values the source manipulates at UTC midnight);
  `iso` renders a day number as the `yyyy-mm-dd` string the source stores.
* `Date.now()` is passed in as an explicit `ts` argument; the random id
  suffix produced by `Math.random().toString(36).slice(2,8)` is passed in as
  an explicit `String` argument (one per re-keyed task).
* React's `setPlans`/`setHistory` state updates become pure functions
  `PlannerState → PlannerState`.
-/

namespace Audax

/-- Task category: the TS string-literal union
`"GYM" | "BIKE" | "MOB" | "MICRO" | "HAND" | "NUTR" | "SLEEP"`. -/
inductive Category where
  | GYM | BIKE | MOB | MICRO | HAND | NUTR | SLEEP
deriving DecidableEq, Repr

/-- The string value a `Category` stands for in the source (used when an id
`{date}_{category}_{n}` is minted). -/
def Category.str : Category → String
  | .GYM => "GYM"
  | .BIKE => "BIKE"
  | .MOB => "MOB"
  | .MICRO => "MICRO"
  | .HAND => "HAND"
  | .NUTR => "NUTR"
  | .SLEEP => "SLEEP"

/-- `Task` of the source: `tips?: string[]` is optional, hence `Option`. -/
structure Task where
  id : String
  label : String
  done : Bool
  tips : Option (List String)
  category : Category
deriving DecidableEq, Repr

/-- `DayPlan` of the source. `date` is the ISO `yyyy-mm-dd` key; the numeric
metrics are JS numbers, modelled as rationals; optional fields are `Option`. -/
structure DayPlan where
  date : String
  phase : String
  week : Nat
  tasks : List Task
  notes : Option String
  sleepHours : Option ℚ
  napsNote : Option String
  hrRest : Option ℚ
  bodyMass : Option ℚ
  microDone : Option ℚ
  microTarget : Option ℚ
deriving DecidableEq, Repr

/-- `HistoryItem` of the source (`ts` is epoch milliseconds). -/
structure HistoryItem where
  ts : Nat
  date : String
  action : String
  detail : String
deriving DecidableEq, Repr

/-- The in-memory state owned by the state manager: the `plans` and
`history` React state variables. The history list is newest-first, as in the
source (every mutation prepends its entry). -/
structure PlannerState where
  plans : List DayPlan
  history : List HistoryItem
deriving DecidableEq, Repr

/-! ### Calendar arithmetic

The source builds `Date` objects at UTC midnight (`new Date("2025-09-18")`)
and walks them with `eachDayOfInterval`; differences of such dates are whole
multiples of 86400000 ms. We therefore model a date as its day number (days
since 1970-01-01) and use the standard civil-calendar conversions. -/

/-- Day number (days since 1970-01-01) of a Gregorian date `y-m-d`. -/
def daysFromCivil (y m d : Nat) : Nat :=
  let y' := if m ≤ 2 then y - 1 else y
  let era := y' / 400
  let yoe := y' % 400
  let mp := if 2 < m then m - 3 else m + 9
  let doy := (153 * mp + 2) / 5 + d - 1
  let doe := yoe * 365 + yoe / 4 - yoe / 100 + doy
  era * 146097 + doe - 719468

/-- Gregorian date `(y, m, d)` of a day number: inverse of `daysFromCivil`. -/
def civilFromDays (z : Nat) : Nat × Nat × Nat :=
  let z' := z + 719468
  let era := z' / 146097
  let doe := z' % 146097
  let yoe := (doe - doe / 1460 + doe / 36524 - doe / 146096) / 365
  let y := yoe + era * 400
  let doy := doe - (365 * yoe + yoe / 4 - yoe / 100)
  let mp := (5 * doy + 2) / 153
  let d := doy - (153 * mp + 2) / 5 + 1
  let m := if mp < 10 then mp + 3 else mp - 9
  (if m ≤ 2 then y + 1 else y, m, d)

/-- Two-digit zero padding of a month or day component. -/
def pad2 (n : Nat) : String :=
  if n < 10 then "0" ++ toString n else toString n

/-- `iso`: the `yyyy-mm-dd` string of a day number
(the source's `d.toISOString().slice(0,10)`). -/
def iso (z : Nat) : String :=
  let c := civilFromDays z
  toString c.1 ++ "-" ++ pad2 c.2.1 ++ "-" ++ pad2 c.2.2

/-- `const START = new Date("2025-09-18")`, as a day number. -/
def START : Nat := daysFromCivil 2025 9 18

/-- `const RACE = new Date("2025-11-23")`, as a day number. -/
def RACE : Nat := daysFromCivil 2025 11 23

/-- Whole days between two day numbers (the source computes the ms difference
and divides by 86400000, which on UTC-midnight dates is exact). -/
def daysBetween (a b : Nat) : Nat := b - a

/-- `weekIndex(d)`: `Math.floor((+d - +START)/(1000*60*60*24)/7) + 1`.
On day numbers in the covered range this is `(d - START) / 7 + 1`. -/
def weekIndex (d : Nat) : Nat := (d - START) / 7 + 1

/-- `phaseName(week)`: the fixed 4-bucket step function. -/
def phaseName (week : Nat) : String :=
  if week ≤ 3 then "BASE (stabilizacja bólu)"
  else if week ≤ 6 then "BUILD (VO2/dynamika + objętość)"
  else if week ≤ 8 then "SPECIFIC (ultra + trening jelit)"
  else "TAPER (zmniejszanie objętości)"

/-- Day of week with Monday = 0 … Sunday = 6: the source remaps JS
`getDay()` (Sunday = 0) via `d.getDay()===0?6:d.getDay()-1`. Day number 0
(1970-01-01) was a Thursday, so `getDay z = (z + 4) % 7`. -/
def dowOf (z : Nat) : Nat :=
  let g := (z + 4) % 7
  if g = 0 then 6 else g - 1

/-! ### The rule tables of the generator -/

/-- The `TIPS` record: short tip lists keyed by exercise name; a key the
record does not hold yields the empty list (it is never looked up). -/
def TIPS (k : String) : List String :=
  if k = "McGill Big 3" then
    ["Ból ≤3/10; kręgosłup neutralny.",
     "Curl-up 3 s; side-plank łokieć pod barkiem; bird-dog 3 s zatrzymania."]
  else if k = "Glute bridge" then
    ["Pięty pod kolanami, żebra w dół.", "Pośladki mocno w górze 1–2 s."]
  else if k = "Hip-hinge drill" then
    ["Kij: głowa-plecy-miednica w kontakcie.", "Ruch z bioder, nie z lędźwi."]
  else if k = "Hamstring sliders" then
    ["Ekscentryk 3–4 s.", "Biodra w linii, bez ciągnięcia lędźwiami."]
  else if k = "Pallof press" then
    ["Napięty core, bez rotacji.", "Pauza 2–3 s na wyproście."]
  else if k = "RDL" then
    ["Zawias w biodrach, neutralny kręgosłup.", "Sztanga/KB blisko ciała; tempo 2-0-2."]
  else if k = "Split squat" then
    ["Kolano nad śródstopiem, miednica poziomo.",
     "Ciężar na pięcie/środstopiu, tułów lekko pochylony."]
  else if k = "Trap-bar deadlift" then
    ["Łopatki w kieszenie, brzuch napięty.", "Wypychaj podłogę, nie ciągnij plecami."]
  else if k = "Wiosłowanie" then
    ["Plecy neutralne, łokcie przez plecy.", "Pauza 1 s na szczycie ruchu."]
  else if k = "Dead bug" then
    ["Lędźwie dociśnięte do podłoża.", "Wydech przy prostowaniu."]
  else if k = "Side-plank" then
    ["Ciało w linii prostej.", "Miednica nie opada; równy oddech."]
  else if k = "Z2 jazda" then
    ["Możliwa rozmowa.", "Co 10’ wstań 10–20 s, zmieniaj chwyt."]
  else if k = "Tempo/technika" then
    ["Stabilny tułów, patrz daleko.", "Prowadź rower biodrem; barki luźno."]
  else if k = "VO2max" then
    ["110–120% FTP (Z5); kadencja 90–100.", "Pozycja stabilna, nie szarp."]
  else if k = "30/30" then
    ["30 s mocno / 30 s lekko.", "Nie spal się w 1. serii."]
  else if k = "Sprinty" then
    ["10–15 s z pełnego rozluźnienia.", "Maks bez kołysania, odpoczynek 3–5 min."]
  else if k = "Over-unders" then
    ["Sekwencje pod/ponad progiem.", "Kontrola oddechu, pozycja stabilna."]
  else []

/-- A `{label, tips?}` element returned by `gymFor` / `bikeFor`. -/
structure Entry where
  label : String
  tips : Option (List String)
deriving DecidableEq, Repr

/-- `gymFor(week, dow)`: the GYM block rule table. -/
def gymFor (week dow : Nat) : List Entry :=
  if ¬(dow = 0 ∨ dow = 2 ∨ dow = 4) then []
  else if week ≤ 3 then
    [⟨"McGill Big 3 — curl-up 3×8–10 (3 s), side-plank 3×15–20 s/str., bird-dog 3×6–8/str.",
      some (TIPS "McGill Big 3")⟩,
     ⟨"Glute bridge 3×12–15 (pauza 2 s)", some (TIPS "Glute bridge")⟩,
     ⟨"Hip-hinge drill 3×10", some (TIPS "Hip-hinge drill")⟩,
     ⟨"Hamstring sliders 3×8–10 (wolny ekscentryk)", some (TIPS "Hamstring sliders")⟩,
     ⟨"Pallof press 3×12/str.", some (TIPS "Pallof press")⟩]
  else if week ≤ 6 then
    [⟨"RDL 4×6–8 (RPE 6–7)", some (TIPS "RDL")⟩,
     ⟨"Split squat 3×8/str.", some (TIPS "Split squat")⟩,
     ⟨"Wiosłowanie 3×10", some (TIPS "Wiosłowanie")⟩,
     ⟨"Trap-bar deadlift 3×5 (opc., ból ≤3/10)", some (TIPS "Trap-bar deadlift")⟩,
     ⟨"Dead bug 3×8/str.", some (TIPS "Dead bug")⟩,
     ⟨"Side-plank 3×25–30 s", some (TIPS "Side-plank")⟩]
  else if week ≤ 8 then
    if dow = 2 then
      [⟨"RDL 3×5 (RPE 6)", some (TIPS "RDL")⟩,
       ⟨"Goblet squat 3×8", none⟩,
       ⟨"Wiosłowanie 3×10", some (TIPS "Wiosłowanie")⟩,
       ⟨"McGill Big 3 mix 10–12’", none⟩]
    else
      [⟨"RDL 3×5 (RPE 6)", some (TIPS "RDL")⟩,
       ⟨"McGill Big 3 mix 10’ / Pallof", none⟩]
  else
    [⟨"Technika: lekkie RDL 2×5", none⟩,
     ⟨"Core 8–10’ McGill / anti-rotacje (bez DOMS)", none⟩]

/-- `bikeFor(week, dow)`: the BIKE block rule table (`null` becomes `none`). -/
def bikeFor (week dow : Nat) : Option Entry :=
  if week ≤ 3 then
    if dow = 1 then
      some ⟨"Z2 60–90’ + kadencja mieszana: 5×3’ 85–90 rpm / 5×3’ 70–75 rpm.", some (TIPS "Z2 jazda")⟩
    else if dow = 3 then some ⟨"Z2 60–90’; co 10’ wstań 10–20 s.", some (TIPS "Z2 jazda")⟩
    else if dow = 5 then some ⟨"Z2 długi 90–120’ (tyg. 3: 120–150’).", some (TIPS "Z2 jazda")⟩
    else if dow = 6 then some ⟨"Opcjonalny recovery 45–60’ Z1–Z2 / spacer 45’.", none⟩
    else none
  else if week ≤ 6 then
    if dow = 1 then
      some ⟨"VO2max: 5×3’ @110–120% FTP (p. 3–4’) / alternatywa 2×(10×30/30)",
            some (TIPS "VO2max" ++ TIPS "30/30")⟩
    else if dow = 3 then
      some ⟨"Tempo/technika 60–90’ + 6–8×10–15 s sprintów (pełny odpoczynek)",
            some (TIPS "Tempo/technika" ++ TIPS "Sprinty")⟩
    else if dow = 5 then some ⟨"Z2 długi 3–4 h.", some (TIPS "Z2 jazda")⟩
    else if dow = 6 then some ⟨"Back-to-back: 2–3 h Z2 (jeśli sob. ≥3 h).", some (TIPS "Z2 jazda")⟩
    else none
  else if week ≤ 8 then
    if dow = 1 then
      some ⟨"Over-unders: 3×10’ (2’ @95–100% / 30” @110–115%), p. 5’ (lub VO2 4×5’)",
            some (TIPS "Over-unders")⟩
    else if dow = 3 then
      some ⟨"Nocny/świtny 2–3 h – test oświetlenia/ubioru; wstaw 10×15 s sprint.",
            some (TIPS "Tempo/technika" ++ TIPS "Sprinty")⟩
    else if dow = 5 then some ⟨"Długi 5–6 h; żywienie 60→90(100+) g/h.", some (TIPS "Z2 jazda")⟩
    else if dow = 6 then some ⟨"Back-to-back: 3–4 h Z2 (tydzień po długim).", some (TIPS "Z2 jazda")⟩
    else none
  else
    if dow = 1 then some ⟨"Z2 60–75’ z 3×3’ tempo. Lekko.", some (TIPS "Z2 jazda")⟩
    else if dow = 3 then some ⟨"Krótko 45–60’ Z2. Sprzęt check.", some (TIPS "Z2 jazda")⟩
    else if dow = 5 then some ⟨"Z2 90’ z przebieżkami 30–60 s.", some (TIPS "Z2 jazda")⟩
    else if dow = 6 then some ⟨"Odzyskanie: 45’ spacer/lekki rozjazd.", none⟩
    else none

/-- `mobility()`. -/
def mobility : List String :=
  ["Zginacze biodra 2×45 s/str. (miednica podwinięta)",
   "T-spine na wałku + piersiowe 2×45 s",
   "Oddech przeponowy 5 głębokich oddechów"]

/-- `microBreaks()`. -/
def microBreaks : List String :=
  ["Mikro-przerwy (co 45–60 min, 2–4’): □ □ □ □ □ □ □ □ □ □"]

/-- `handRehab(dow)`. -/
def handRehab (dow : Nat) : List String :=
  if dow = 0 ∨ dow = 3 ∨ dow = 5 then
    ["Nerwoglajding mediany 2×5–10 (bez bólu)",
     "Chwyt izometryczny 3×30–45 s",
     "Ekstensja nadgarstka 3×15"]
  else ["Nerwoglajding mediany 1×5–10 (lekko)"]

/-- `sub` occurs as a contiguous run inside `l` (the char-list core of JS
`String.prototype.includes`). -/
def hasInfix (sub : List Char) : List Char → Bool
  | [] => sub.isEmpty
  | c :: rest => sub.isPrefixOf (c :: rest) || hasInfix sub rest

/-- JS `s.includes(sub)`. -/
def strIncludes (s sub : String) : Bool := hasInfix sub.toList s.toList

/-- `nutrition(week, dow, bike)`: carbohydrate targets; the day counts as
`long` when the bike label contains "5–6 h" or "3–4 h" (substring match). -/
def nutrition (week dow : Nat) (bike : Option Entry) : List String :=
  let bt := (bike.map Entry.label).getD ""
  let long := strIncludes bt "5–6 h" || strIncludes bt "3–4 h"
  let cd : String × String :=
    if long then ("8–10 g/kg", "W trakcie: 60–90(100+) g/h; sód 300–600 mg/h.")
    else if dow = 1 ∨ dow = 3 then ("6–8 g/kg", "W trakcie: 40–60 g/h; sód 300–500 mg/h.")
    else if dow = 5 ∨ dow = 6 then ("7–9 g/kg", "W trakcie: 60–90 g/h; sód 300–600 mg/h.")
    else ("5–6 g/kg", "W trakcie: woda lub 20–30 g/h jeśli >60’.")
  let base := "Węgle: " ++ cd.1 ++
    "; Białko: 1.6–2.0 g/kg (4×0.3–0.4 g/kg). Przed: 1–4 g/kg 1–4 h + kofeina 3 mg/kg (opc.). " ++
    cd.2 ++ " Po: 0.3 g/kg białka + 1–1.2 g/kg/h 3–4 h (po długim)."
  let extra :=
    if week = 7 ∨ week = 8 then
      " Nitrany (burak) 400–800 mg NO₃⁻ 2–3 h przed kluczowym akcentem."
    else ""
  [base ++ extra,
   "Meal prep: □ śniadanie  □ przekąski  □ obiad  □ kolacja  □ bidony/żele gotowe"]

/-- `sleep()`. -/
def sleep : List String :=
  ["Sen 7.5–9 h", "Drzemka 20–30’ (opc.)", "HR spocz., masa, nastrój — odnotowane"]

/-! ### The generator -/

/-- One day's record: the body of the `days.map` in `generateInitialPlan`.
`(label, category, tips)` entries are concatenated in the source's fixed
category order and numbered by one counter `idc` across the whole day; on the
race day the GYM tasks are filtered out after assembly (ids keep their
numbers). -/
def dayPlanFor (d : Nat) : DayPlan :=
  let w := weekIndex d
  let phase := phaseName w
  let dow := dowOf d
  let gym := gymFor w dow
  let bike := bikeFor w dow
  let entries : List (String × Category × Option (List String)) :=
    gym.map (fun g => (g.label, Category.GYM, g.tips)) ++
    (match bike with
     | some b => [(b.label, Category.BIKE, b.tips)]
     | none => []) ++
    mobility.map (fun m => (m, Category.MOB, none)) ++
    microBreaks.map (fun m => (m, Category.MICRO, none)) ++
    (handRehab dow).map (fun h => (h, Category.HAND, none)) ++
    (nutrition w dow bike).map (fun x => (x, Category.NUTR, none)) ++
    sleep.map (fun x => (x, Category.SLEEP, none))
  let tasks0 : List Task := entries.mapIdx (fun i e =>
    { id := iso d ++ "_" ++ e.2.1.str ++ "_" ++ toString i,
      label := e.1, done := false, tips := e.2.2, category := e.2.1 })
  let tasks := if d = RACE then tasks0.filter (fun t => !(t.category == Category.GYM)) else tasks0
  { date := iso d, phase := phase, week := w, tasks := tasks,
    notes := some "", sleepHours := none, napsNote := none, hrRest := none,
    bodyMass := none, microDone := some 0, microTarget := some 10 }

/-- `generateInitialPlan()`: one `DayPlan` per date of the inclusive interval
`[START, RACE]`, in date order (`eachDayOfInterval` steps one day at a time). -/
def generateInitialPlan : List DayPlan :=
  (List.range (RACE - START + 1)).map (fun k => dayPlanFor (START + k))

/-! ### The state manager -/

/-- `toggleTask(dateISO, id, checked)`: set `done` on the matching task of the
matching day; prepend one CHECK/UNCHECK entry (the source logs unconditionally,
whether or not date or id matched anything). -/
def toggleTask (s : PlannerState) (ts : Nat) (dateISO id : String) (checked : Bool) :
    PlannerState :=
  { plans := s.plans.map (fun p =>
      if p.date = dateISO then
        { p with tasks := p.tasks.map (fun t => if t.id = id then { t with done := checked } else t) }
      else p),
    history := { ts := ts, date := dateISO,
                 action := if checked then "CHECK" else "UNCHECK", detail := id } :: s.history }

/-- `resetDay(dateISO)`: set `done := false` on every task of the matching day;
prepend one RESET_DAY entry. -/
def resetDay (s : PlannerState) (ts : Nat) (dateISO : String) : PlannerState :=
  { plans := s.plans.map (fun p =>
      if p.date = dateISO then
        { p with tasks := p.tasks.map (fun t => { t with done := false }) }
      else p),
    history := { ts := ts, date := dateISO, action := "RESET_DAY", detail := "reset" } :: s.history }

/-- `moveTask(fromISO, toISO, id)`: no-op when the dates are equal, either date
is missing, or the id is absent from the source day; otherwise remove the task
from the source day, append it to the destination day re-keyed as
`{toISO}_{category}_{suffix}` (the random suffix is the `suffix` argument),
and prepend one MOVE_TASK entry. -/
def moveTask (s : PlannerState) (ts : Nat) (fromISO toISO id suffix : String) : PlannerState :=
  if fromISO = toISO then s
  else
    match s.plans.find? (fun p => p.date == fromISO), s.plans.find? (fun p => p.date == toISO) with
    | some src, some dst =>
      match src.tasks.find? (fun t => t.id == id) with
      | some task =>
        let newSrc := { src with tasks := src.tasks.filter (fun t => !(t.id == id)) }
        let newTask : Task := { task with id := toISO ++ "_" ++ task.category.str ++ "_" ++ suffix }
        let newDst := { dst with tasks := dst.tasks ++ [newTask] }
        { plans := s.plans.map (fun p =>
            if p.date = fromISO then newSrc else if p.date = toISO then newDst else p),
          history := { ts := ts, date := toISO, action := "MOVE_TASK",
                       detail := task.label ++ " ← " ++ fromISO } :: s.history }
      | none => s
    | _, _ => s

/-- `moveWholeDay(fromISO, toISO)`: no-op when the dates are equal or either is
missing; otherwise move all tasks of the source day to the end of the
destination day's list, each re-keyed as `{toISO}_{category}_{suffix}` with its
own random suffix (`suffixOf i` for the i-th task), leave the source day's
list empty, and prepend one MOVE_DAY entry. -/
def moveWholeDay (s : PlannerState) (ts : Nat) (fromISO toISO : String)
    (suffixOf : Nat → String) : PlannerState :=
  if fromISO = toISO then s
  else
    match s.plans.find? (fun p => p.date == fromISO), s.plans.find? (fun p => p.date == toISO) with
    | some src, some dst =>
      let moved := src.tasks.mapIdx (fun i t =>
        { t with id := toISO ++ "_" ++ t.category.str ++ "_" ++ suffixOf i })
      let newSrc := { src with tasks := [] }
      let newDst := { dst with tasks := dst.tasks ++ moved }
      { plans := s.plans.map (fun p =>
          if p.date = fromISO then newSrc else if p.date = toISO then newDst else p),
        history := { ts := ts, date := toISO, action := "MOVE_DAY",
                     detail := "zadania z " ++ fromISO } :: s.history }
    | _, _ => s

/-- The inline DELETE_TASK handler of the task menu: remove the task (closed
over as `t`) from the day's list, prepend one DELETE_TASK entry with the
task's label. -/
def deleteTask (s : PlannerState) (ts : Nat) (dateISO : String) (t : Task) : PlannerState :=
  { plans := s.plans.map (fun p =>
      if p.date = dateISO then { p with tasks := p.tasks.filter (fun x => !(x.id == t.id)) }
      else p),
    history := { ts := ts, date := dateISO, action := "DELETE_TASK", detail := t.label } :: s.history }

/-- The history clear button: `setHistory([])`. -/
def clearHistory (s : PlannerState) : PlannerState := { s with history := [] }

/-- JS `Math.round` on a rational: `⌊q + 1/2⌋` (round half toward +∞). -/
def jsRound (q : ℚ) : ℤ := ⌊q + 1 / 2⌋

/-- `completion(p?)`: 0 when the day is absent or has no tasks, otherwise
`Math.round(100 * done / total)`. The division only happens under the
`length ≠ 0` guard, so it is never a division by zero. -/
def completion : Option DayPlan → ℤ
  | none => 0
  | some p =>
    if p.tasks.length = 0 then 0
    else jsRound (100 * ((p.tasks.filter (fun t => t.done)).length : ℚ) / (p.tasks.length : ℚ))

/-- A parsed import document, after `JSON.parse`: an object whose `plans` and
`history` fields may each be present (truthy — an array, even empty, is
truthy) or absent/null; or a bare array (the legacy plans-only format); or
anything else (including an unparsable file, which the `catch` turns into a
no-op). -/
inductive ImportDoc where
  | record (plans : Option (List DayPlan)) (history : Option (List HistoryItem))
  | array (plans : List DayPlan)
  | other
deriving DecidableEq

/-- `exportJSON`: the serialized snapshot is the two-field document
`{ plans, history }` (`JSON.stringify({ plans, history })`). -/
def exportJSON (s : PlannerState) : ImportDoc := .record (some s.plans) (some s.history)

/-- `importJSON`: install `plans` and `history` verbatim when both fields are
present; install just `plans` from a bare array; otherwise leave the current
state unchanged. -/
def importJSON (doc : ImportDoc) (s : PlannerState) : PlannerState :=
  match doc with
  | .record (some ps) (some hs) => { plans := ps, history := hs }
  | .record _ _ => s
  | .array ps => { s with plans := ps }
  | .other => s

/-- Every `action` string appearing at a `setHistory` call site in the source:
the complete set of history actions the code can emit. -/
def emittedActions : List String :=
  ["CHECK", "UNCHECK", "RESET_DAY", "MOVE_TASK", "MOVE_DAY", "DELETE_TASK"]

/-! ### Auxiliary definitions for the statements and sample data -/

/-- A numeric key that separates distinct strings (equal strings always get
equal keys, so distinct keys certify distinct strings). -/
def stringKey (s : String) : Nat :=
  s.toList.foldl (fun a c => a * 2097152 + c.toNat) 0

/-- Every field of a `DayPlan` other than `tasks`, bundled into one tuple. -/
def planMeta (p : DayPlan) :
    String × String × Nat × Option String × Option ℚ × Option String ×
      Option ℚ × Option ℚ × Option ℚ × Option ℚ :=
  (p.date, p.phase, p.week, p.notes, p.sleepHours, p.napsNote, p.hrRest,
   p.bodyMass, p.microDone, p.microTarget)

/-- The frame condition of a plans-collection update with respect to the two
dates `a`, `b`: same length, positions whose date is neither `a` nor `b` are
exactly unchanged, and every position keeps all fields other than `tasks`. -/
abbrev FramePreserved (old new : List DayPlan) (a b : String) : Prop :=
  new.length = old.length ∧
  ∀ (i : Nat) (p q : DayPlan), old[i]? = some p → new[i]? = some q →
    ((p.date ≠ a → p.date ≠ b → q = p) ∧ planMeta q = planMeta p)

/-- Sample task (done) used by concrete witnesses. -/
def sampleTask1 : Task :=
  { id := "t1", label := "L1", done := true, tips := some ["wsk"], category := .GYM }

/-- Sample task (not done) used by concrete witnesses. -/
def sampleTask2 : Task :=
  { id := "t2", label := "L2", done := false, tips := none, category := .BIKE }

/-- Sample day with two tasks. -/
def sampleDayA : DayPlan :=
  { date := "2025-09-18", phase := "BASE (stabilizacja bólu)", week := 1,
    tasks := [sampleTask1, sampleTask2], notes := some "", sleepHours := none,
    napsNote := none, hrRest := none, bodyMass := none, microDone := some 0,
    microTarget := some 10 }

/-- Sample day with no tasks. -/
def sampleDayB : DayPlan :=
  { date := "2025-09-19", phase := "BASE (stabilizacja bólu)", week := 1,
    tasks := [], notes := some "", sleepHours := none, napsNote := none,
    hrRest := none, bodyMass := none, microDone := some 0, microTarget := some 10 }

/-- Sample planner state used by concrete witnesses. -/
def sampleState : PlannerState := { plans := [sampleDayA, sampleDayB], history := [] }

/-! ### Helper lemmas -/

/-- `find?` only depends on the pointwise values of its predicate. -/
theorem find?_ext {α : Type} {p q : α → Bool} (h : ∀ x, p x = q x) (l : List α) :
    l.find? p = l.find? q := by
  induction l with
  | nil => rfl
  | cons x xs ih =>
    simp only [List.find?, h x]
    cases q x
    · exact ih
    · rfl

/-- `week` and `date` of a generated day record (projection computations). -/
theorem dayPlanFor_week (d : Nat) : (dayPlanFor d).week = weekIndex d := rfl

theorem dayPlanFor_date (d : Nat) : (dayPlanFor d).date = iso d := rfl

/-- Searching a mapped plans list by date, when the map preserves dates. -/
theorem find?_map_date {f : DayPlan → DayPlan} (hf : ∀ p, (f p).date = p.date)
    (plans : List DayPlan) (a : String) :
    (plans.map f).find? (fun p => p.date == a) =
      (plans.find? (fun p => p.date == a)).map f := by
  rw [List.find?_map]
  exact congrArg _ (find?_ext (fun x => by simp [Function.comp, hf x]) plans)

/-- With pairwise-distinct dates, any member carrying the searched date is the
one `find?` returns. -/
theorem first_with_date_eq {plans : List DayPlan} {a : String} {src p : DayPlan}
    (hnd : (plans.map DayPlan.date).Nodup)
    (hfind : plans.find? (fun q => q.date == a) = some src)
    (hp : p ∈ plans) (hpa : p.date = a) : p = src := by
  have hmem : src ∈ plans := List.mem_of_find?_eq_some hfind
  have hdate : src.date = a := by simpa using List.find?_some hfind
  exact List.inj_on_of_nodup_map hnd hp hmem (by rw [hpa, hdate])

/-- An unchanged plans list is frame-preserved. -/
theorem framePreserved_refl (l : List DayPlan) (a b : String) : FramePreserved l l a b := by
  refine ⟨rfl, fun i p q hp hq => ?_⟩
  rw [hp] at hq
  cases hq
  exact ⟨fun _ _ => rfl, rfl⟩

/-- The date-dispatching map both move operations perform is frame-preserving,
provided the two replacement records keep the non-`tasks` fields of the
records `find?` located. -/
theorem framePreserved_move_map {s : PlannerState} {a b : String} {src dst src' dst' : DayPlan}
    (hnd : (s.plans.map DayPlan.date).Nodup)
    (hsrc : s.plans.find? (fun p => p.date == a) = some src)
    (hdst : s.plans.find? (fun p => p.date == b) = some dst)
    (hsrc' : planMeta src' = planMeta src) (hdst' : planMeta dst' = planMeta dst) :
    FramePreserved s.plans
      (s.plans.map (fun p => if p.date = a then src' else if p.date = b then dst' else p)) a b := by
  refine ⟨by simp, fun i p q hp hq => ?_⟩
  rw [List.getElem?_map, hp] at hq
  cases hq
  have hpmem : p ∈ s.plans := List.getElem?_mem hp
  constructor
  · intro ha hb
    simp only [if_neg ha, if_neg hb]
  · by_cases ha : p.date = a
    · have hps : p = src := first_with_date_eq hnd hsrc hpmem ha
      simp only [if_pos ha]
      rw [hsrc', hps]
    · by_cases hb : p.date = b
      · have hpd : p = dst := first_with_date_eq hnd hdst hpmem hb
        simp only [if_neg ha, if_pos hb]
        rw [hdst', hpd]
      · simp only [if_neg ha, if_neg hb]

/-- Distinct numeric keys of the generated date strings (kernel evaluation):
certifies the 67 ISO dates are pairwise distinct. -/
theorem generated_dates_key_nodup :
    ((generateInitialPlan.map DayPlan.date).map stringKey).Nodup := by decide

/-- `moveTask` in the successful case, as one equation. -/
theorem moveTask_found {s : PlannerState} {ts : Nat} {a b id sfx : String}
    {src dst : DayPlan} {task : Task}
    (hab : ¬a = b)
    (hsrc : s.plans.find? (fun p => p.date == a) = some src)
    (hdst : s.plans.find? (fun p => p.date == b) = some dst)
    (htask : src.tasks.find? (fun t => t.id == id) = some task) :
    moveTask s ts a b id sfx =
      { plans := s.plans.map (fun p =>
          if p.date = a then { src with tasks := src.tasks.filter (fun t => !(t.id == id)) }
          else if p.date = b then
            { dst with tasks := dst.tasks ++
                [{ task with id := b ++ "_" ++ task.category.str ++ "_" ++ sfx }] }
          else p),
        history := { ts := ts, date := b, action := "MOVE_TASK",
                     detail := task.label ++ " ← " ++ a } :: s.history } := by
  simp only [moveTask, if_neg hab, hsrc, hdst, htask]

/-- `moveWholeDay` in the successful case, as one equation. -/
theorem moveWholeDay_found {s : PlannerState} {ts : Nat} {a b : String}
    {sufs : Nat → String} {src dst : DayPlan}
    (hab : ¬a = b)
    (hsrc : s.plans.find? (fun p => p.date == a) = some src)
    (hdst : s.plans.find? (fun p => p.date == b) = some dst) :
    moveWholeDay s ts a b sufs =
      { plans := s.plans.map (fun p =>
          if p.date = a then { src with tasks := [] }
          else if p.date = b then
            { dst with tasks := dst.tasks ++ src.tasks.mapIdx (fun i t =>
                { t with id := b ++ "_" ++ t.category.str ++ "_" ++ sufs i }) }
          else p),
        history := { ts := ts, date := b, action := "MOVE_DAY",
                     detail := "zadania z " ++ a } :: s.history } := by
  simp only [moveWholeDay, if_neg hab, hsrc, hdst]

/-! ### The claims -/

/-- C1: for every date `d = START + k` in the inclusive range `[START, RACE]`,
the generated `DayPlan` for `d` has
`week = floor(daysBetween(START, d) / 7) + 1`, and this value is ≥ 1. -/
theorem generateInitialPlan_week (k : Nat) (hk : k < daysBetween START RACE + 1) :
    (generateInitialPlan[k]?).map DayPlan.week =
      some (daysBetween START (START + k) / 7 + 1) ∧
    1 ≤ daysBetween START (START + k) / 7 + 1 := by
  constructor
  · have hk' : k < RACE - START + 1 := hk
    rw [generateInitialPlan, List.getElem?_map, List.getElem?_range hk']
    simp [dayPlanFor_week, weekIndex, daysBetween]
  · exact Nat.le_add_left 1 _

/-- Witness for C1 at the concrete offset 14 (the spec's own example: 14 days
after START falls in week 3). -/
theorem generateInitialPlan_week_witness :
    (generateInitialPlan[14]?).map DayPlan.week =
      some (daysBetween START (START + 14) / 7 + 1) ∧
    1 ≤ daysBetween START (START + 14) / 7 + 1 :=
  generateInitialPlan_week 14 (by decide)

/-- C8: the generator is total over its fixed domain: it produces exactly
`daysBetween(START, RACE) + 1` day records, whose dates are precisely the ISO
strings of the inclusive interval `[START, RACE]` in date order, each exactly
once (the date list has no duplicate). -/
theorem generateInitialPlan_covers_range :
    generateInitialPlan.length = daysBetween START RACE + 1 ∧
    generateInitialPlan.map DayPlan.date =
      (List.range (daysBetween START RACE + 1)).map (fun k => iso (START + k)) ∧
    (generateInitialPlan.map DayPlan.date).Nodup := by
  refine ⟨?_, ?_, ?_⟩
  · simp [generateInitialPlan, daysBetween]
  · rw [generateInitialPlan, List.map_map]
    rfl
  · exact List.Nodup.of_map stringKey generated_dates_key_nodup

/-- C4: importing the document produced by export restores the exported state
exactly (plans and history, order preserved), whatever the current state is. -/
theorem importJSON_exportJSON_roundtrip (s cur : PlannerState) :
    importJSON (exportJSON s) cur = s := rfl

/-- C6: `completion` is 0 on a missing day and on a day with no tasks, and on
a nonempty day it is `Math.round(100 * countDone / totalTasks)`; it is a total
function (never throws, never divides by zero — the division is guarded). -/
theorem completion_zero_safe :
    completion none = 0 ∧
    (∀ p : DayPlan, p.tasks.length = 0 → completion (some p) = 0) ∧
    (∀ p : DayPlan, p.tasks.length ≠ 0 →
      completion (some p) =
        jsRound (100 * ((p.tasks.filter (fun t => t.done)).length : ℚ) /
          (p.tasks.length : ℚ))) := by
  refine ⟨rfl, ?_, ?_⟩ <;> intro p h <;> simp [completion, h]

/-- C5 (counterexample): the code never emits a CHECK_ALL history action — no
`setHistory` call site carries it (while RESET_DAY, the analogous bulk
operation's action, is emitted), so no `checkAll(date)` operation exists. -/
theorem checkAll_missing_counterexample :
    "CHECK_ALL" ∉ emittedActions ∧ "RESET_DAY" ∈ emittedActions := by decide

/-- C5 (amended): the bulk per-day operation the state manager provides is
`resetDay(date)`: it sets `done := false` on every task of the day at `date`,
leaves every other day untouched, and appends exactly one RESET_DAY history
entry. -/
theorem resetDay_unchecks_all (s : PlannerState) (ts : Nat) (dateISO : String) :
    (∀ p ∈ (resetDay s ts dateISO).plans, p.date = dateISO → ∀ t ∈ p.tasks, t.done = false) ∧
    (∀ p ∈ (resetDay s ts dateISO).plans, p.date ≠ dateISO → p ∈ s.plans) ∧
    (resetDay s ts dateISO).history =
      { ts := ts, date := dateISO, action := "RESET_DAY", detail := "reset" } :: s.history ∧
    "RESET_DAY" ∈ emittedActions := by
  refine ⟨?_, ?_, rfl, by decide⟩
  · intro p hp hpd t ht
    simp only [resetDay, List.mem_map] at hp
    obtain ⟨q, hq, rfl⟩ := hp
    by_cases h : q.date = dateISO
    · simp only [if_pos h] at ht
      simp only [List.mem_map] at ht
      obtain ⟨u, hu, rfl⟩ := ht
      rfl
    · rw [if_neg h] at hpd
      exact absurd hpd h
  · intro p hp hpd
    simp only [resetDay, List.mem_map] at hp
    obtain ⟨q, hq, rfl⟩ := hp
    by_cases h : q.date = dateISO
    · rw [if_pos h] at hpd
      exact absurd h hpd
    · rwa [if_neg h]

/-- C2: a successful `moveTask(a, b, id)` removes the task with that id from
day `a`, appends exactly one task to the end of day `b`'s list, re-keyed as
`{b}_{category}_{suffix}` with `label`, `done`, `category` and `tips` all
preserved, and prepends one MOVE_TASK history entry. -/
theorem moveTask_moves_single_task {s : PlannerState} {ts : Nat} {a b id sfx : String}
    {src dst : DayPlan} {task : Task}
    (hab : ¬a = b)
    (hsrc : s.plans.find? (fun p => p.date == a) = some src)
    (hdst : s.plans.find? (fun p => p.date == b) = some dst)
    (htask : src.tasks.find? (fun t => t.id == id) = some task) :
    (∀ p ∈ (moveTask s ts a b id sfx).plans, p.date = a → ∀ t ∈ p.tasks, t.id ≠ id) ∧
    (∀ p ∈ (moveTask s ts a b id sfx).plans, p.date = b →
      ∃ newT : Task, p.tasks = dst.tasks ++ [newT] ∧
        newT.id = b ++ "_" ++ task.category.str ++ "_" ++ sfx ∧
        newT.label = task.label ∧ newT.done = task.done ∧
        newT.category = task.category ∧ newT.tips = task.tips) ∧
    (moveTask s ts a b id sfx).history =
      { ts := ts, date := b, action := "MOVE_TASK",
        detail := task.label ++ " ← " ++ a } :: s.history := by
  have hsrcd : src.date = a := by simpa using List.find?_some hsrc
  have hdstd : dst.date = b := by simpa using List.find?_some hdst
  rw [moveTask_found hab hsrc hdst htask]
  refine ⟨?_, ?_, rfl⟩
  · intro p hp hpa t ht
    simp only [List.mem_map] at hp
    obtain ⟨q, hq, rfl⟩ := hp
    by_cases h1 : q.date = a
    · simp only [if_pos h1] at ht
      simp only [List.mem_filter] at ht
      simpa using ht.2
    · by_cases h2 : q.date = b
      · rw [if_neg h1, if_pos h2] at hpa
        exact absurd (hdstd.symm.trans hpa).symm hab
      · rw [if_neg h1, if_neg h2] at hpa
        exact absurd hpa h1
  · intro p hp hpb
    simp only [List.mem_map] at hp
    obtain ⟨q, hq, rfl⟩ := hp
    by_cases h1 : q.date = a
    · rw [if_pos h1] at hpb
      exact absurd (hsrcd.symm.trans hpb) hab
    · by_cases h2 : q.date = b
      · simp only [if_neg h1, if_pos h2]
        exact ⟨_, rfl, rfl, rfl, rfl, rfl, rfl⟩
      · rw [if_neg h1, if_neg h2] at hpb
        exact absurd hpb h2

/-- Witness for C2 on the concrete sample state: the MOVE_TASK history entry
produced by a successful move, with all hypotheses discharged by evaluation. -/
theorem moveTask_moves_single_task_witness :
    (moveTask sampleState 5 "2025-09-18" "2025-09-19" "t1" "abc").history =
      { ts := 5, date := "2025-09-19", action := "MOVE_TASK",
        detail := sampleTask1.label ++ " ← " ++ "2025-09-18" } :: sampleState.history :=
  (@moveTask_moves_single_task sampleState 5 "2025-09-18" "2025-09-19" "t1" "abc"
    sampleDayA sampleDayB sampleTask1 (by decide) (by decide) (by decide) (by decide)).2.2

/-- C3: a successful `moveWholeDay(a, b)` leaves day `a`'s task list empty but
keeps its DayPlan record in the collection (same collection length, the record
still found under date `a`), makes day `b`'s task list length the sum of both
previous lengths, and prepends exactly one MOVE_DAY history entry. -/
theorem moveWholeDay_empties_source {s : PlannerState} {ts : Nat} {a b : String}
    {sufs : Nat → String} {src dst : DayPlan}
    (hab : ¬a = b)
    (hsrc : s.plans.find? (fun p => p.date == a) = some src)
    (hdst : s.plans.find? (fun p => p.date == b) = some dst) :
    (moveWholeDay s ts a b sufs).plans.find? (fun p => p.date == a) =
      some { src with tasks := [] } ∧
    (moveWholeDay s ts a b sufs).plans.length = s.plans.length ∧
    (∀ p ∈ (moveWholeDay s ts a b sufs).plans, p.date = b →
      p.tasks.length = dst.tasks.length + src.tasks.length) ∧
    (moveWholeDay s ts a b sufs).history =
      { ts := ts, date := b, action := "MOVE_DAY",
        detail := "zadania z " ++ a } :: s.history := by
  have hsrcd : src.date = a := by simpa using List.find?_some hsrc
  have hdstd : dst.date = b := by simpa using List.find?_some hdst
  rw [moveWholeDay_found hab hsrc hdst]
  have hf : ∀ p : DayPlan,
      ((if p.date = a then { src with tasks := ([] : List Task) }
        else if p.date = b then
          { dst with tasks := dst.tasks ++ src.tasks.mapIdx (fun i t =>
              { t with id := b ++ "_" ++ t.category.str ++ "_" ++ sufs i }) }
        else p) : DayPlan).date = p.date := by
    intro p
    by_cases h1 : p.date = a
    · simp only [if_pos h1]
      exact hsrcd.trans h1.symm
    · by_cases h2 : p.date = b
      · simp only [if_neg h1, if_pos h2]
        exact hdstd.trans h2.symm
      · simp only [if_neg h1, if_neg h2]
  refine ⟨?_, by simp, ?_, rfl⟩
  · rw [find?_map_date hf, hsrc]
    simp only [Option.map_some']
    rw [if_pos hsrcd]
  · intro p hp hpb
    simp only [List.mem_map] at hp
    obtain ⟨q, hq, rfl⟩ := hp
    by_cases h1 : q.date = a
    · rw [if_pos h1] at hpb
      exact absurd (hsrcd.symm.trans hpb) hab
    · by_cases h2 : q.date = b
      · simp only [if_neg h1, if_pos h2, List.length_append, List.length_mapIdx]
      · rw [if_neg h1, if_neg h2] at hpb
        exact absurd hpb h2

/-- Witness for C3 on the concrete sample state: the source day's record
survives with an empty task list. -/
theorem moveWholeDay_empties_source_witness :
    (moveWholeDay sampleState 5 "2025-09-18" "2025-09-19" (fun _ => "zz")).plans.find?
        (fun p => p.date == "2025-09-18") = some { sampleDayA with tasks := [] } :=
  (@moveWholeDay_empties_source sampleState 5 "2025-09-18" "2025-09-19" (fun _ => "zz")
    sampleDayA sampleDayB (by decide) (by decide) (by decide)).1

/-- C7: `toggleTask` on an existing date but an id absent from that day leaves
the plans collection unchanged (and raises nothing — the function is total)
while still prepending exactly one CHECK/UNCHECK history entry. -/
theorem toggleTask_missing_id {s : PlannerState} {ts : Nat} {a id : String} {checked : Bool}
    (hex : ∃ p ∈ s.plans, p.date = a)
    (habs : ∀ p ∈ s.plans, p.date = a → ∀ t ∈ p.tasks, t.id ≠ id) :
    (toggleTask s ts a id checked).plans = s.plans ∧
    (toggleTask s ts a id checked).history =
      { ts := ts, date := a, action := if checked then "CHECK" else "UNCHECK",
        detail := id } :: s.history := by
  refine ⟨?_, rfl⟩
  have hpt : ∀ p ∈ s.plans,
      ((if p.date = a then
          { p with tasks := p.tasks.map (fun t => if t.id = id then { t with done := checked } else t) }
        else p) : DayPlan) = p := by
    intro p hp
    by_cases h : p.date = a
    · simp only [if_pos h]
      have hgt : ∀ t ∈ p.tasks,
          (if t.id = id then ({ t with done := checked } : Task) else t) = t :=
        fun t ht => if_neg (habs p hp h t ht)
      rw [List.map_congr_left hgt, List.map_id']
    · simp only [if_neg h]
  calc (toggleTask s ts a id checked).plans
      = s.plans.map (fun p => p) := List.map_congr_left hpt
    _ = s.plans := List.map_id' _

/-- Witness for C7: toggling an absent id on the sample state's first day
leaves the collection unchanged. -/
theorem toggleTask_missing_id_witness :
    (toggleTask sampleState 5 "2025-09-18" "zz" true).plans = sampleState.plans :=
  (toggleTask_missing_id (by decide) (by decide)).1

/-- C9: both move operations preserve the frame: the collection keeps its
length and order, every DayPlan at a date other than the two involved is
exactly unchanged, and even on the two affected days every field other than
`tasks` keeps its value (assuming the one-DayPlan-per-date invariant). -/
theorem move_ops_frame (s : PlannerState) (ts : Nat) (a b id sfx : String)
    (sufs : Nat → String) (hnd : (s.plans.map DayPlan.date).Nodup) :
    FramePreserved s.plans (moveTask s ts a b id sfx).plans a b ∧
    FramePreserved s.plans (moveWholeDay s ts a b sufs).plans a b := by
  constructor
  · by_cases hab : a = b
    · simp only [moveTask, if_pos hab]
      exact framePreserved_refl _ _ _
    · rcases h1 : s.plans.find? (fun p => p.date == a) with _ | src
      · simp only [moveTask, if_neg hab, h1]
        exact framePreserved_refl _ _ _
      · rcases h2 : s.plans.find? (fun p => p.date == b) with _ | dst
        · simp only [moveTask, if_neg hab, h1, h2]
          exact framePreserved_refl _ _ _
        · rcases h3 : src.tasks.find? (fun t => t.id == id) with _ | task
          · simp only [moveTask, if_neg hab, h1, h2, h3]
            exact framePreserved_refl _ _ _
          · rw [moveTask_found hab h1 h2 h3]
            exact framePreserved_move_map hnd h1 h2 rfl rfl
  · by_cases hab : a = b
    · simp only [moveWholeDay, if_pos hab]
      exact framePreserved_refl _ _ _
    · rcases h1 : s.plans.find? (fun p => p.date == a) with _ | src
      · simp only [moveWholeDay, if_neg hab, h1]
        exact framePreserved_refl _ _ _
      · rcases h2 : s.plans.find? (fun p => p.date == b) with _ | dst
        · simp only [moveWholeDay, if_neg hab, h1, h2]
          exact framePreserved_refl _ _ _
        · rw [moveWholeDay_found hab h1 h2]
          exact framePreserved_move_map hnd h1 h2 rfl rfl

/-- Witness for C9 on the concrete sample state: `moveTask` keeps the
collection's length. -/
theorem move_ops_frame_witness :
    (moveTask sampleState 5 "2025-09-18" "2025-09-19" "t1" "abc").plans.length =
      sampleState.plans.length :=
  ((move_ops_frame sampleState 5 "2025-09-18" "2025-09-19" "t1" "abc"
    (fun _ => "zz") (by decide)).1).1

/-- C10: `toggleTask` on a date with no DayPlan leaves the collection
unchanged but still prepends exactly one CHECK/UNCHECK history entry whose
detail is the id — unlike `moveTask` and `moveWholeDay`, which on a missing
date leave the whole state (plans and history) untouched. -/
theorem toggleTask_missing_date_logs (s : PlannerState) (ts : Nat) (a id : String)
    (checked : Bool) (hmiss : ∀ p ∈ s.plans, p.date ≠ a) :
    (toggleTask s ts a id checked).plans = s.plans ∧
    (toggleTask s ts a id checked).history =
      { ts := ts, date := a, action := if checked then "CHECK" else "UNCHECK",
        detail := id } :: s.history ∧
    (∀ b sfx, moveTask s ts a b id sfx = s) ∧
    (∀ x sfx, moveTask s ts x a id sfx = s) ∧
    (∀ b sufs, moveWholeDay s ts a b sufs = s) ∧
    (∀ x sufs, moveWholeDay s ts x a sufs = s) := by
  have hnone : s.plans.find? (fun p => p.date == a) = none :=
    List.find?_eq_none.mpr (fun p hp => by simp [hmiss p hp])
  refine ⟨?_, rfl, ?_, ?_, ?_, ?_⟩
  · have hpt : ∀ p ∈ s.plans,
        ((if p.date = a then
            { p with tasks := p.tasks.map (fun t => if t.id = id then { t with done := checked } else t) }
          else p) : DayPlan) = p := by
      intro p hp
      simp only [if_neg (hmiss p hp)]
    calc (toggleTask s ts a id checked).plans
        = s.plans.map (fun p => p) := List.map_congr_left hpt
      _ = s.plans := List.map_id' _
  · intro b sfx
    by_cases hab : a = b
    · simp only [moveTask, if_pos hab]
    · simp only [moveTask, if_neg hab, hnone]
  · intro x sfx
    by_cases hxa : x = a
    · simp only [moveTask, if_pos hxa]
    · rcases h1 : s.plans.find? (fun p => p.date == x) with _ | src
      · simp only [moveTask, if_neg hxa, h1]
      · simp only [moveTask, if_neg hxa, h1, hnone]
  · intro b sufs
    by_cases hab : a = b
    · simp only [moveWholeDay, if_pos hab]
    · simp only [moveWholeDay, if_neg hab, hnone]
  · intro x sufs
    by_cases hxa : x = a
    · simp only [moveWholeDay, if_pos hxa]
    · rcases h1 : s.plans.find? (fun p => p.date == x) with _ | src
      · simp only [moveWholeDay, if_neg hxa, h1]
      · simp only [moveWholeDay, if_neg hxa, h1, hnone]

/-- Witness for C10: toggling on a date outside the sample collection leaves
the plans unchanged. -/
theorem toggleTask_missing_date_logs_witness :
    (toggleTask sampleState 5 "2099-01-01" "t1" true).plans = sampleState.plans :=
  (toggleTask_missing_date_logs sampleState 5 "2099-01-01" "t1" true (by decide)).1

end Audax
